import Mathlib

/-!
Verification of the photo-collage application (`src/gui.py`) against its
natural-language specification.

The program is a PyQt GUI around two small algorithmic pieces:
  * a folder validator (`update_dimension_label`) that counts image files by
    extension and accepts only perfect-square counts, and
  * a collage builder (`create_collage`, imported from the `photo_collage`
    module, whose source is not part of this repository snapshot) that tiles
    the resized images into one square canvas.

We embed the code shallowly: file names are Lean `String`s, a directory
listing is a `List String`, raster images are records with a pixel function,
the mutable Qt widget state is an explicit `UiState` record, and the
filesystem touched by saving is an explicit `FS` record.  Python's machine
integers never overflow here (counts and pixel sizes), so `Nat` is used
throughout.
-/

/-! ## Strings: Python `str.lower` and `str.endswith` -/

/-- Python's `str.lower()` restricted to the character-wise case mapping
(the file names involved use ASCII, where this matches Python exactly). -/
def pyLower (s : String) : String := ⟨s.data.map Char.toLower⟩

/-- Python's `s.endswith(suffix)` for a single suffix. -/
def pyEndsWith (s suffix : String) : Bool := List.isSuffixOf suffix.data s.data

/-! ## The recognized-extension filter (gui.py lines 196-199) -/

/-- `valid_extensions` from `update_dimension_label`. -/
def valid_extensions : List String := [".jpg", ".jpeg", ".png", ".gif", ".bmp", ".webp"]

/-- The predicate `f.lower().endswith(valid_extensions)`: Python's
`endswith` with a tuple argument succeeds when any member matches. -/
def isRecognizedImage (f : String) : Bool :=
  valid_extensions.any (fun ext => pyEndsWith (pyLower f) ext)

/-- `images = [f for f in os.listdir(folder_path) if f.lower().endswith(valid_extensions)]`,
as a function of the directory listing. -/
def imagesOf (listing : List String) : List String :=
  listing.filter (fun f => isRecognizedImage f)

/-- The image count `num_images = len(images)`. -/
def numRecognized (listing : List String) : Nat := (imagesOf listing).length

/-- The spec's own wording of the filter: names ending, case-insensitively,
in a dot followed by one of jpg, jpeg, png, gif, bmp, webp.  Stated
separately from `isRecognizedImage` so the two can be compared. -/
def specRecognized (f : String) : Bool :=
  ["jpg", "jpeg", "png", "gif", "bmp", "webp"].any
    (fun ext => pyEndsWith (pyLower f) ("." ++ ext))

/-! ## Images -/

/-- A raster image: a width, a height, and a colour for each pixel
coordinate.  Colours are abstract `Nat` codes. -/
structure Image where
  width : Nat
  height : Nat
  px : Nat → Nat → Nat

/-- A directory, for the collage builder: each entry is a file name paired
with the result of decoding it (`none` when the bytes are not a valid
image). -/
abbrev Folder := List (String × Option Image)

/-! ## UI state and label texts (gui.py) -/

/-- The dialog boxes the GUI can pop up. -/
inductive Dialog where
  | critical (msg : String)
  | information (msg : String)
deriving DecidableEq, Repr

/-- Label text set when no image is found (gui.py line 202). -/
def noImagesText : String :=
  "No images found in this folder. Please select a different folder."

/-- `"Final collage size: Unknown"`. -/
def unknownSizeText : String := "Final collage size: Unknown"

/-- `f"{dim} x {dim} collage ({num_images} images)"`. -/
def dimensionText (dim n : Nat) : String :=
  toString dim ++ " x " ++ toString dim ++ " collage (" ++ toString n ++ " images)"

/-- `f"Cannot use this folder. {num_images} images found, which is not a perfect square."`. -/
def notSquareText (n : Nat) : String :=
  "Cannot use this folder. " ++ toString n ++ " images found, which is not a perfect square."

/-- `f"Final collage size: {final_size} x {final_size}"`. -/
def finalSizeText (s : Nat) : String :=
  "Final collage size: " ++ toString s ++ " x " ++ toString s

/-- `"Invalid resolution entry."`. -/
def invalidResolutionText : String := "Invalid resolution entry."

/-- `"No collage to save. Generate a preview first."` (gui.py line 278). -/
def noCollageText : String := "No collage to save. Generate a preview first."

/-- The widget state of `PhotoCollageApp` relevant to the claims:
`self.dimension`, the two labels, the two buttons, the stored collage, the
displayed preview, the output-path line edit and the text currently shown
in the resolution dropdown. -/
structure UiState where
  dimension : Option Nat
  dimension_label : String
  final_size_label : String
  create_button_enabled : Bool
  save_button_enabled : Bool
  generated_collage : Option Image
  preview : Option Image
  output_path : String
  size_text : String

/-! ## The resolution dropdown (gui.py lines 130-140) -/

/-- Python's `range(start, stop, step)` for a positive step. -/
def pyRange (start stop step : Nat) : List Nat :=
  (List.range ((stop - start + step - 1) / step)).map (fun i => start + step * i)

/-- `self.size_dropdown.addItems([str(i) for i in range(100, 1100, 100)])`. -/
def size_dropdown_items : List String := (pyRange 100 1100 100).map (fun i => toString i)

/-- `self.size_dropdown.setCurrentIndex(3)`. -/
def size_dropdown_default_index : Nat := 3

/-- The text initially shown by the dropdown: the item at the default index. -/
def size_dropdown_default : String := size_dropdown_items.getD size_dropdown_default_index ""

/-! ## `update_final_size_label` (gui.py lines 223-231) -/

/-- Python's `int(s)` on the non-negative digit strings the resolution
dropdown holds: `none` models the `ValueError` raised on a non-digit
entry. -/
def pyInt? (s : String) : Option Nat :=
  if s.data ≠ [] ∧ s.data.all (fun c => c.isDigit) then
    some (s.data.foldl (fun acc c => acc * 10 + (c.toNat - 48)) 0)
  else none

/-- `update_final_size_label`: when a dimension is set, parse the dropdown
text (`int(...)`, modelled by `pyInt?`) and display
`size_value * dimension`; a parse failure shows the invalid-entry text;
with no dimension the method does nothing. -/
def update_final_size_label (st : UiState) : UiState :=
  match st.dimension with
  | none => st
  | some d =>
    match pyInt? st.size_text with
    | some size_value => { st with final_size_label := finalSizeText (size_value * d) }
    | none => { st with final_size_label := invalidResolutionText }

/-! ## `update_dimension_label` (gui.py lines 195-221) -/

/-- `update_dimension_label`: filter the listing to recognized images; on a
zero count show the no-images text, clear the dimension and disable the
generate button; on a perfect square `dim * dim` store `dim`, show the
dimension text, refresh the final-size label, and enable the button;
otherwise clear the dimension, show the not-a-square text, and disable
the button.  `int(math.isqrt n)` is `Nat.sqrt n`. -/
def update_dimension_label (st : UiState) (listing : List String) : UiState :=
  if numRecognized listing = 0 then
    { st with dimension := none, dimension_label := noImagesText,
              final_size_label := unknownSizeText, create_button_enabled := false }
  else if Nat.sqrt (numRecognized listing) * Nat.sqrt (numRecognized listing)
            = numRecognized listing then
    { update_final_size_label
        { st with dimension := some (Nat.sqrt (numRecognized listing)),
                  dimension_label := dimensionText (Nat.sqrt (numRecognized listing))
                                       (numRecognized listing) }
      with create_button_enabled := true }
  else
    { st with dimension := none,
              dimension_label := notSquareText (numRecognized listing),
              final_size_label := unknownSizeText, create_button_enabled := false }

/-! ## The collage builder

`create_collage` is imported in gui.py from the `photo_collage` module,
whose source file is not part of this repository snapshot; the builder is
therefore modelled from the specification (spec.md §4.2). -/

/-- The builder's error taxonomy (spec.md §4.2 / §7). -/
inductive BuildError where
  | imageLoadError (file : String)
  | countMismatch
deriving DecidableEq, Repr

/-- Modelled from the spec: §4.2 step 2, "resize (stretch, not crop) to
`tileSize × tileSize` using a quality-appropriate resampling filter".  The
filter is unspecified; nearest-neighbour sampling is taken as the concrete
choice.  (`create_collage` of module `photo_collage` is not in the
repository snapshot.) -/
def resize (t : Nat) (img : Image) : Image where
  width := t
  height := t
  px := fun x y => img.px (x * img.width / t) (y * img.height / t)

/-- Modelled from the spec: §4.2 steps 3-4, allocating a
`(dimension*tileSize) × (dimension*tileSize)` canvas and pasting the `k`-th
tile at `((k % dimension)*tileSize, (k / dimension)*tileSize)`: the canvas
pixel `(x, y)` belongs to the tile with row `y / t` and column `x / t`.
Unpainted pixels keep the background colour 0. -/
def compose (tiles : List Image) (t dimension : Nat) : Image where
  width := dimension * t
  height := dimension * t
  px := fun x y =>
    match tiles[(y / t) * dimension + x / t]? with
    | some tile => tile.px (x % t) (y % t)
    | none => 0

/-- Modelled from the spec: §4.2 step 2 loading each enumerated file as a
raster image, failing with `ImageLoadError` on the first file that cannot
be decoded. -/
def load_images : Folder → Except BuildError (List Image)
  | [] => Except.ok []
  | (name, none) :: _ => Except.error (BuildError.imageLoadError name)
  | (_, some img) :: rest =>
    match load_images rest with
    | Except.ok imgs => Except.ok (img :: imgs)
    | Except.error e => Except.error e

/-- The recognized entries of a folder, §4.2 step 1: "same filter as §4.1". -/
def recognizedEntries (folder : Folder) : Folder :=
  folder.filter (fun entry => isRecognizedImage entry.1)

/-- Modelled from the spec: `create_collage(folder_path, size_value, dimension)`
of module `photo_collage` (not in the repository snapshot), following
spec.md §4.2: enumerate recognized files, check the defensive count
re-validation, load every file, resize each to `size_value × size_value`,
and compose the tiles row-major on the square canvas. -/
def create_collage (folder : Folder) (size_value dimension : Nat) :
    Except BuildError Image :=
  let files := recognizedEntries folder
  if files.length = dimension * dimension then
    match load_images files with
    | Except.ok imgs => Except.ok (compose (imgs.map (resize size_value)) size_value dimension)
    | Except.error e => Except.error e
  else
    Except.error BuildError.countMismatch

/-! ## The background worker (gui.py lines 20-36, 245-273) -/

/-- The two signals a `CollageWorker` can emit. -/
inductive WorkerSignal where
  | collage_created (collage : Image)
  | error_occurred (msg : String)

/-- `str(e)` for the builder's exceptions (the exact wording of the Python
exception messages is immaterial to the claims). -/
def errorMessage : BuildError → String
  | BuildError.imageLoadError f => "ImageLoadError: " ++ f
  | BuildError.countMismatch => "CountMismatch"

/-- `CollageWorker.run`: call `create_collage`; emit `collage_created` with
the result on success, `error_occurred` with the stringified exception on
failure. -/
def CollageWorker.run (folder : Folder) (size_value dimension : Nat) : WorkerSignal :=
  match create_collage folder size_value dimension with
  | Except.ok collage => WorkerSignal.collage_created collage
  | Except.error e => WorkerSignal.error_occurred (errorMessage e)

/-- Dispatch of the worker's signal on the UI thread:
`on_collage_created` stores the collage and replaces the preview pixmap
with one derived from it (the Qt scale-to-fit step is display glue and is
modelled as showing the collage itself); `on_error_occurred` pops up a
critical dialog and touches no state. -/
def handleWorkerSignal (st : UiState) : WorkerSignal → UiState × Option Dialog
  | WorkerSignal.collage_created collage =>
    ({ st with generated_collage := some collage, preview := some collage }, none)
  | WorkerSignal.error_occurred msg => (st, some (Dialog.critical msg))

/-! ## Saving (gui.py lines 275-286) -/

/-- What the save step records at a path: the encoding format, the DPI
metadata pair, and the pixel dimensions of the written image. -/
structure SavedFile where
  format : String
  dpi : Nat × Nat
  width : Nat
  height : Nat
deriving DecidableEq, Repr

/-- The filesystem visible to `save_collage`: which paths are writable
(covering both a read-only target and a missing parent directory), and the
file record stored at each path. -/
structure FS where
  writable : String → Bool
  files : String → Option SavedFile

/-- `f"IOError: {path}"`, the stringified exception shown on a failed save. -/
def ioErrorText (path : String) : String := "IOError: " ++ path

/-- `f"Collage saved to {path}!"`. -/
def savedText (path : String) : String := "Collage saved to " ++ path ++ "!"

/-- Modelled from the spec: §4.3, PIL's `Image.save(path, dpi=(300, 300))`
(library code, not in the repository snapshot): writes the image JPEG-encoded
with the given DPI metadata and the image's own pixel dimensions, or raises
an `IOError` when the path is not writable or its directory does not exist. -/
def pil_save (img : Image) (path : String) (dpi : Nat × Nat) (fs : FS) :
    Except String FS :=
  if fs.writable path then
    Except.ok { fs with
      files := fun p => if p = path then
          some { format := "JPEG", dpi := dpi, width := img.width, height := img.height }
        else fs.files p }
  else
    Except.error (ioErrorText path)

/-- `save_collage`: refuse with a critical dialog when no collage was ever
generated; otherwise try `generated_collage.save(output_path, dpi=(300, 300))`,
reporting success or the caught exception. -/
def save_collage (st : UiState) (fs : FS) : UiState × FS × Dialog :=
  match st.generated_collage with
  | none => (st, fs, Dialog.critical noCollageText)
  | some img =>
    match pil_save img st.output_path (300, 300) fs with
    | Except.ok fs2 => (st, fs2, Dialog.information (savedText st.output_path))
    | Except.error e => (st, fs, Dialog.critical e)

/-! ## Concrete fixtures used by the witnesses -/

/-- A tiny synthetic image with a constant colour `c`. -/
def mkImage (c : Nat) : Image := { width := 1, height := 1, px := fun _ _ => c }

/-- The widget state right after `init_ui`: no dimension, placeholder label
texts, generate enabled, save disabled, no collage, the dropdown on its
default item. -/
def initState : UiState where
  dimension := none
  dimension_label := "No valid directory selected yet."
  final_size_label := unknownSizeText
  create_button_enabled := true
  save_button_enabled := false
  generated_collage := none
  preview := none
  output_path := "collage.jpg"
  size_text := size_dropdown_default

/-- A folder of four decodable, distinctly coloured images. -/
def folder4 : Folder :=
  [("a.jpg", some (mkImage 1)), ("b.jpg", some (mkImage 2)),
   ("c.jpg", some (mkImage 3)), ("d.jpg", some (mkImage 4))]

/-- The images of `folder4` in enumeration order. -/
def imgs4 : List Image := [mkImage 1, mkImage 2, mkImage 3, mkImage 4]

/-- The 2×2 collage built from `folder4` at tile size 2. -/
def collage4 : Image := compose (imgs4.map (resize 2)) 2 2

/-- A folder with a single (undecodable) recognized entry. -/
def badFolder : Folder := [("a.jpg", (none : Option Image))]

/-- A folder with four recognized entries, the first of which cannot be
decoded. -/
def corruptFolder : Folder :=
  [("a.jpg", (none : Option Image)), ("b.jpg", some (mkImage 1)),
   ("c.jpg", some (mkImage 2)), ("d.jpg", some (mkImage 3))]

/-- The 1×1 collage built from a single image at tile size 2. -/
def demoCollage : Image := compose [resize 2 (mkImage 9)] 2 1

/-- A UI state with dimension 1 accepted and the dropdown on "2". -/
def stDim1 : UiState := { initState with dimension := some 1, size_text := "2" }

/-- A UI state holding a generated collage. -/
def stWithCollage : UiState := { initState with generated_collage := some (mkImage 7) }

/-- A filesystem on which every path is writable and no file exists yet. -/
def fsAllWritable : FS := { writable := fun _ => true, files := fun _ => none }

/-- A filesystem on which no path is writable. -/
def fsReadOnly : FS := { writable := fun _ => false, files := fun _ => none }

/-! ## Helper lemmas -/

/-- `update_final_size_label` never touches the stored dimension. -/
theorem update_final_size_label_dimension (st : UiState) :
    (update_final_size_label st).dimension = st.dimension := by
  rcases hd : st.dimension with _ | d
  · simp [update_final_size_label, hd]
  · rcases ht : pyInt? st.size_text with _ | v <;>
      simp [update_final_size_label, hd, ht]

/-- 3 is not a perfect square (used to instantiate the validator theorem). -/
theorem three_not_mul_self (d : Nat) : 3 ≠ d * d := by
  rcases Nat.lt_or_ge d 2 with h | h
  · interval_cases d <;> decide
  · have h4 : 2 * 2 ≤ d * d := Nat.mul_le_mul h h
    omega

/-- Every not-a-perfect-square message starts with the letter C. -/
theorem notSquareText_head (m : Nat) : (notSquareText m).data.head? = some 'C' := by
  have h1 : "Cannot use this folder. ".data = 'C' :: "annot use this folder. ".data := rfl
  unfold notSquareText
  rw [String.data_append, String.data_append, List.append_assoc, h1, List.cons_append]
  rfl

/-- The no-images message is distinct from every not-a-perfect-square
message. -/
theorem noImagesText_ne_notSquareText (m : Nat) : noImagesText ≠ notSquareText m := by
  intro h
  have h2 := congrArg (fun s => s.data.head?) h
  simp only [notSquareText_head] at h2
  exact absurd h2 (by decide)

/-! ## C1 - the folder validator and perfect squares -/

/-- C1: for every directory listing whose recognized-image count is a
non-zero perfect square `d * d`, `update_dimension_label` accepts: it
stores grid dimension `d` (which equals `floor (sqrt n)`) and enables
collage generation; for every non-zero count that is not a perfect square
it rejects: the stored dimension is cleared and generation is disabled. -/
theorem validator_accepts_iff_perfect_square (st : UiState) (listing : List String) :
    (∀ d : Nat, d ≠ 0 → numRecognized listing = d * d →
      (update_dimension_label st listing).dimension = some d ∧
      d = Nat.sqrt (numRecognized listing) ∧
      (update_dimension_label st listing).create_button_enabled = true) ∧
    (numRecognized listing ≠ 0 → (∀ d : Nat, numRecognized listing ≠ d * d) →
      (update_dimension_label st listing).dimension = none ∧
      (update_dimension_label st listing).create_button_enabled = false) := by
  constructor
  · intro d hd hn
    have hn0 : numRecognized listing ≠ 0 := by
      rw [hn]; exact Nat.mul_ne_zero hd hd
    have hs : Nat.sqrt (numRecognized listing) = d := by
      rw [hn, Nat.sqrt_eq]
    refine ⟨?_, hs.symm, ?_⟩ <;>
      simp [update_dimension_label, hn, hd, Nat.sqrt_eq,
            update_final_size_label_dimension]
  · intro hn0 hns
    have hcond : ¬ (Nat.sqrt (numRecognized listing) * Nat.sqrt (numRecognized listing)
        = numRecognized listing) := fun h => hns _ h.symm
    constructor <;> simp [update_dimension_label, hn0, hcond]

/-- Witness for C1: a listing with four recognized images is accepted with
dimension 2, and one with three recognized images is rejected. -/
theorem validator_accepts_iff_perfect_square_witness :
    (numRecognized ["a.jpg", "b.png", "c.JPG", "d.webp"] = 2 * 2 ∧
     (update_dimension_label initState ["a.jpg", "b.png", "c.JPG", "d.webp"]).dimension
        = some 2 ∧
     (update_dimension_label initState
        ["a.jpg", "b.png", "c.JPG", "d.webp"]).create_button_enabled = true) ∧
    (numRecognized ["a.jpg", "b.jpg", "c.jpg"] ≠ 0 ∧
     (update_dimension_label initState ["a.jpg", "b.jpg", "c.jpg"]).dimension = none) := by
  refine ⟨⟨by decide, ?_, ?_⟩, ⟨by decide, ?_⟩⟩
  · exact ((validator_accepts_iff_perfect_square initState
      ["a.jpg", "b.png", "c.JPG", "d.webp"]).1 2 (by decide) (by decide)).1
  · exact ((validator_accepts_iff_perfect_square initState
      ["a.jpg", "b.png", "c.JPG", "d.webp"]).1 2 (by decide) (by decide)).2.2
  · exact ((validator_accepts_iff_perfect_square initState
      ["a.jpg", "b.jpg", "c.jpg"]).2 (by decide)
      (fun d => three_not_mul_self d)).1

/-! ## C2 - the empty-folder outcome -/

/-- C2: on a listing with zero recognized images the validator takes the
no-images branch: it shows the no-images message (which differs from every
not-a-perfect-square message), clears the dimension, resets the final-size
label and disables collage generation. -/
theorem validator_no_images (st : UiState) (listing : List String)
    (h : numRecognized listing = 0) :
    update_dimension_label st listing =
      { st with dimension := none, dimension_label := noImagesText,
                final_size_label := unknownSizeText, create_button_enabled := false } ∧
    (∀ m : Nat, noImagesText ≠ notSquareText m) := by
  constructor
  · simp [update_dimension_label, h]
  · exact noImagesText_ne_notSquareText

/-- Witness for C2: a listing with no recognized image extension. -/
theorem validator_no_images_witness :
    numRecognized ["notes.txt", "readme.md"] = 0 ∧
    update_dimension_label initState ["notes.txt", "readme.md"] =
      { initState with dimension := none, dimension_label := noImagesText,
                       final_size_label := unknownSizeText,
                       create_button_enabled := false } ∧
    noImagesText ≠ notSquareText 0 := by
  refine ⟨by decide, ?_, ?_⟩
  · exact (validator_no_images initState ["notes.txt", "readme.md"] (by decide)).1
  · exact (validator_no_images initState ["notes.txt", "readme.md"] (by decide)).2 0

/-! ## C7 - the recognized-extension filter -/

/-- C7: the image set used by validation is exactly the listing entries
whose (lower-cased) names end with one of the six recognized extensions:
the code's filter agrees pointwise with the spec's wording, and membership
in the image set is equivalent to membership in the listing together with
the recognized-suffix test; any entry failing the test is never counted. -/
theorem image_set_is_extension_filter :
    (∀ f : String, isRecognizedImage f = specRecognized f) ∧
    (∀ (listing : List String) (f : String),
      f ∈ imagesOf listing ↔ f ∈ listing ∧ specRecognized f = true) := by
  have hmap : valid_extensions
      = (["jpg", "jpeg", "png", "gif", "bmp", "webp"].map (fun e => "." ++ e)) := by decide
  have hext : ∀ f : String, isRecognizedImage f = specRecognized f := by
    intro f
    rw [isRecognizedImage, specRecognized, hmap, List.any_map]
    rfl
  refine ⟨hext, fun listing f => ?_⟩
  rw [imagesOf, List.mem_filter, hext f]

/-- Witness for C7: the filter agreement evaluated on a mixed-case name
and on a concrete listing. -/
theorem image_set_is_extension_filter_witness :
    isRecognizedImage "photo.JPeG" = specRecognized "photo.JPeG" ∧
    ("photo.JPeG" ∈ imagesOf ["photo.JPeG", "doc.txt"] ↔
      "photo.JPeG" ∈ ["photo.JPeG", "doc.txt"] ∧ specRecognized "photo.JPeG" = true) :=
  ⟨image_set_is_extension_filter.1 "photo.JPeG",
   image_set_is_extension_filter.2 ["photo.JPeG", "doc.txt"] "photo.JPeG"⟩

/-! ## C8 - the resolution dropdown -/

/-- C8: the per-tile resolutions offered are exactly the ten values
100, 200, ..., 1000, and the initially selected item is 400. -/
theorem resolution_dropdown_items :
    size_dropdown_items =
      ["100", "200", "300", "400", "500", "600", "700", "800", "900", "1000"] ∧
    size_dropdown_default = "400" ∧ initState.size_text = "400" := by
  refine ⟨by decide, by decide, by decide⟩

/-! ## Builder helper lemmas -/

/-- Successful loading yields one image per folder entry. -/
theorem load_images_length (l : Folder) :
    ∀ imgs, load_images l = Except.ok imgs → imgs.length = l.length := by
  induction l with
  | nil =>
    intro imgs h
    cases h
    rfl
  | cons entry rest ih =>
    intro imgs h
    rcases entry with ⟨name, imgOpt⟩
    rcases imgOpt with _ | img
    · simp [load_images] at h
    · cases hrest : load_images rest with
      | error e => rw [load_images, hrest] at h; cases h
      | ok imgs0 =>
        rw [load_images, hrest] at h
        cases h
        simp [ih imgs0 hrest]

/-- When some entry of the folder cannot be decoded, loading fails with an
`ImageLoadError` naming an undecodable entry of the folder. -/
theorem load_images_error_of_undecodable (l : Folder) :
    (∃ entry ∈ l, entry.2 = none) →
    ∃ f, load_images l = Except.error (BuildError.imageLoadError f) ∧
      (f, (none : Option Image)) ∈ l := by
  induction l with
  | nil =>
    rintro ⟨e, he, -⟩
    cases he
  | cons entry rest ih =>
    rintro ⟨e, he, hnone⟩
    rcases entry with ⟨name, imgOpt⟩
    rcases imgOpt with _ | img
    · exact ⟨name, rfl, List.mem_cons_self _ _⟩
    · rcases List.mem_cons.mp he with heq | hrest
      · rw [heq] at hnone
        cases hnone
      · obtain ⟨f, hload, hmem⟩ := ih ⟨e, hrest, hnone⟩
        refine ⟨f, ?_, List.mem_cons_of_mem _ hmem⟩
        rw [load_images, hload]

/-- Anatomy of a successful build: the recognized count matched
`dimension * dimension`, every file decoded, and the result is the
row-major composition of the resized images. -/
theorem create_collage_ok (folder : Folder) (t d : Nat) (img : Image)
    (h : create_collage folder t d = Except.ok img) :
    (recognizedEntries folder).length = d * d ∧
    ∃ imgs, load_images (recognizedEntries folder) = Except.ok imgs ∧
      img = compose (imgs.map (resize t)) t d := by
  by_cases hc : (recognizedEntries folder).length = d * d
  · refine ⟨hc, ?_⟩
    simp only [create_collage, if_pos hc] at h
    cases hload : load_images (recognizedEntries folder) with
    | error e => rw [hload] at h; cases h
    | ok imgs =>
      rw [hload] at h
      cases h
      exact ⟨imgs, rfl, rfl⟩
  · simp only [create_collage, if_neg hc] at h
    cases h

/-! ## C3 - collage dimensions match the advertised final size -/

/-- C3: every successful build with grid dimension `d` and tile size `t`
yields an image of exactly `(d*t) × (d*t)` pixels, and the final-size
label the UI shows for dimension `d` and dropdown value `t` advertises
`size_value * dimension = t * d`, the same number on each axis. -/
theorem collage_size_matches_ui (folder : Folder) (t d : Nat) (img : Image)
    (h : create_collage folder t d = Except.ok img)
    (st : UiState) (hdim : st.dimension = some d)
    (hsize : pyInt? st.size_text = some t) :
    img.width = d * t ∧ img.height = d * t ∧
    (update_final_size_label st).final_size_label = finalSizeText (t * d) ∧
    t * d = d * t := by
  obtain ⟨-, imgs, -, himg⟩ := create_collage_ok folder t d img h
  refine ⟨by rw [himg]; rfl, by rw [himg]; rfl, ?_, Nat.mul_comm t d⟩
  simp [update_final_size_label, hdim, hsize]

/-- Witness for C3: a 1×1 build at tile size 2 produces a 2×2-pixel image
and the UI advertises 2 x 2. -/
theorem collage_size_matches_ui_witness :
    create_collage [("a.jpg", some (mkImage 9))] 2 1 = Except.ok demoCollage ∧
    stDim1.dimension = some 1 ∧ pyInt? stDim1.size_text = some 2 ∧
    demoCollage.width = 1 * 2 ∧ demoCollage.height = 1 * 2 ∧
    (update_final_size_label stDim1).final_size_label = finalSizeText (2 * 1) := by
  refine ⟨rfl, rfl, by decide, ?_, ?_, ?_⟩
  · exact (collage_size_matches_ui [("a.jpg", some (mkImage 9))] 2 1 demoCollage rfl
      stDim1 rfl (by decide)).1
  · exact (collage_size_matches_ui [("a.jpg", some (mkImage 9))] 2 1 demoCollage rfl
      stDim1 rfl (by decide)).2.1
  · exact (collage_size_matches_ui [("a.jpg", some (mkImage 9))] 2 1 demoCollage rfl
      stDim1 rfl (by decide)).2.2.1

/-! ## C4 - row-major tile placement -/

/-- C4: in a successful build, the canvas pixel at offset `(dx, dy)` inside
the region whose top-left corner is `((k % d) * t, (k / d) * t)` shows the
`k`-th resized tile's pixel `(dx, dy)`: tiles are placed row-major in
enumeration order, each occupying a `t × t` region. -/
theorem collage_tiles_row_major (folder : Folder) (t d : Nat) (img : Image)
    (imgs : List Image) (tile : Image) (k dx dy : Nat)
    (h : create_collage folder t d = Except.ok img)
    (himgs : load_images (recognizedEntries folder) = Except.ok imgs)
    (htile : imgs[k]? = some tile)
    (ht : 0 < t) (hdx : dx < t) (hdy : dy < t) :
    img.px (k % d * t + dx) (k / d * t + dy) = (resize t tile).px dx dy := by
  obtain ⟨hlen, imgs2, himgs2, himg⟩ := create_collage_ok folder t d img h
  rw [himgs] at himgs2
  cases himgs2
  subst himg
  have hY : (k / d * t + dy) / t = k / d := by
    rw [Nat.mul_comm, Nat.mul_add_div ht, Nat.div_eq_of_lt hdy, Nat.add_zero]
  have hX : (k % d * t + dx) / t = k % d := by
    rw [Nat.mul_comm, Nat.mul_add_div ht, Nat.div_eq_of_lt hdx, Nat.add_zero]
  have hYm : (k / d * t + dy) % t = dy := by
    rw [Nat.mul_add_mod', Nat.mod_eq_of_lt hdy]
  have hXm : (k % d * t + dx) % t = dx := by
    rw [Nat.mul_add_mod', Nat.mod_eq_of_lt hdx]
  show (match (imgs.map (resize t))[((k / d * t + dy) / t) * d
          + (k % d * t + dx) / t]? with
        | some tile0 => tile0.px ((k % d * t + dx) % t) ((k / d * t + dy) % t)
        | none => 0)
      = (resize t tile).px dx dy
  rw [hY, hX, hYm, hXm, Nat.div_add_mod' k d, List.getElem?_map, htile]
  rfl

/-- Witness for C4: in the 2×2 build from `folder4`, tile index 2 (row 1,
column 0) shows the third image. -/
theorem collage_tiles_row_major_witness :
    create_collage folder4 2 2 = Except.ok collage4 ∧
    load_images (recognizedEntries folder4) = Except.ok imgs4 ∧
    imgs4[2]? = some (mkImage 3) ∧
    collage4.px (2 % 2 * 2 + 1) (2 / 2 * 2 + 0) = (resize 2 (mkImage 3)).px 1 0 := by
  refine ⟨rfl, rfl, rfl, ?_⟩
  exact collage_tiles_row_major folder4 2 2 collage4 imgs4 (mkImage 3) 2 1 0
    rfl rfl rfl (by decide) (by decide) (by decide)

/-! ## C5 - builder error conditions -/

/-- C5 counterexample: on a folder whose single recognized file cannot be
decoded, requested at dimension 2, the build fails with `CountMismatch`,
not with `ImageLoadError` as the claim (read literally) requires whenever
an undecodable recognized file is present. -/
theorem collage_builder_error_counterexample :
    recognizedEntries badFolder = [("a.jpg", (none : Option Image))] ∧
    create_collage badFolder 100 2 = Except.error BuildError.countMismatch ∧
    BuildError.countMismatch ≠ BuildError.imageLoadError "a.jpg" := by
  refine ⟨rfl, rfl, by decide⟩

/-- C5 (amended): the builder fails with `CountMismatch` whenever the
recognized count differs from `dimension * dimension`; when the count
matches and some recognized file cannot be decoded it fails with
`ImageLoadError` naming an undecodable recognized file; in either failure
no collage is produced and the stored collage is untouched. -/
theorem collage_builder_errors (folder : Folder) (t d : Nat) (st : UiState) :
    ((recognizedEntries folder).length ≠ d * d →
      create_collage folder t d = Except.error BuildError.countMismatch) ∧
    ((recognizedEntries folder).length = d * d →
      (∃ entry ∈ recognizedEntries folder, entry.2 = none) →
      ∃ f, create_collage folder t d = Except.error (BuildError.imageLoadError f) ∧
        (f, (none : Option Image)) ∈ recognizedEntries folder) ∧
    (∀ e, create_collage folder t d = Except.error e →
      (handleWorkerSignal st (CollageWorker.run folder t d)).1.generated_collage
        = st.generated_collage) := by
  refine ⟨?_, ?_, ?_⟩
  · intro hne
    simp [create_collage, hne]
  · intro hlen hex
    obtain ⟨f, herr, hmem⟩ := load_images_error_of_undecodable _ hex
    exact ⟨f, by simp [create_collage, hlen, herr], hmem⟩
  · intro e he
    simp [CollageWorker.run, he, handleWorkerSignal]

/-- Witness for C5: a short folder yields `CountMismatch`; a right-sized
folder with a corrupt first file yields an `ImageLoadError`; the stored
collage survives the failure. -/
theorem collage_builder_errors_witness :
    (recognizedEntries badFolder).length ≠ 2 * 2 ∧
    create_collage badFolder 1 2 = Except.error BuildError.countMismatch ∧
    (recognizedEntries corruptFolder).length = 2 * 2 ∧
    (∃ f, create_collage corruptFolder 1 2
        = Except.error (BuildError.imageLoadError f) ∧
      (f, (none : Option Image)) ∈ recognizedEntries corruptFolder) ∧
    (handleWorkerSignal initState
        (CollageWorker.run badFolder 1 2)).1.generated_collage
      = initState.generated_collage := by
  refine ⟨by decide, ?_, by decide, ?_, ?_⟩
  · exact (collage_builder_errors badFolder 1 2 initState).1 (by decide)
  · exact (collage_builder_errors corruptFolder 1 2 initState).2.1 (by decide)
      ⟨("a.jpg", none), List.mem_cons_self _ _, rfl⟩
  · exact (collage_builder_errors badFolder 1 2 initState).2.2
      BuildError.countMismatch ((collage_builder_errors badFolder 1 2 initState).1
        (by decide))

/-! ## C6 - saving writes a 300 DPI JPEG or fails cleanly -/

/-- C6: with a generated collage in memory, saving to a writable path
records a JPEG-encoded file carrying 300×300 DPI metadata and exactly the
collage's pixel dimensions, touches no other path, and reports success;
on an unwritable path (or missing directory) it fails with the IOError
message and leaves both the UI state (in particular the in-memory collage)
and the filesystem unchanged. -/
theorem save_writes_jpeg_dpi (st : UiState) (fs : FS) (img : Image)
    (h : st.generated_collage = some img) :
    (fs.writable st.output_path = true →
      (save_collage st fs).1 = st ∧
      (save_collage st fs).2.1.files st.output_path =
        some { format := "JPEG", dpi := (300, 300),
               width := img.width, height := img.height } ∧
      (∀ p, p ≠ st.output_path → (save_collage st fs).2.1.files p = fs.files p) ∧
      (save_collage st fs).2.2 = Dialog.information (savedText st.output_path)) ∧
    (fs.writable st.output_path = false →
      save_collage st fs = (st, fs, Dialog.critical (ioErrorText st.output_path))) := by
  constructor
  · intro hw
    refine ⟨?_, ?_, ?_, ?_⟩
    · simp [save_collage, h, pil_save, hw]
    · simp [save_collage, h, pil_save, hw]
    · intro p hp
      simp [save_collage, h, pil_save, hw, hp]
    · simp [save_collage, h, pil_save, hw]
  · intro hw
    simp [save_collage, h, pil_save, hw]

/-- Witness for C6: saving a stored collage on an all-writable filesystem
records the JPEG with 300×300 DPI; on a read-only filesystem nothing
changes and the IOError dialog appears. -/
theorem save_writes_jpeg_dpi_witness :
    stWithCollage.generated_collage = some (mkImage 7) ∧
    fsAllWritable.writable stWithCollage.output_path = true ∧
    (save_collage stWithCollage fsAllWritable).2.1.files stWithCollage.output_path =
      some { format := "JPEG", dpi := (300, 300),
             width := (mkImage 7).width, height := (mkImage 7).height } ∧
    save_collage stWithCollage fsReadOnly =
      (stWithCollage, fsReadOnly, Dialog.critical (ioErrorText stWithCollage.output_path)) := by
  refine ⟨rfl, rfl, ?_, ?_⟩
  · exact ((save_writes_jpeg_dpi stWithCollage fsAllWritable (mkImage 7) rfl).1 rfl).2.1
  · exact (save_writes_jpeg_dpi stWithCollage fsReadOnly (mkImage 7) rfl).2 rfl

/-! ## C9 - failed builds never touch the stored collage or preview -/

/-- C9: when the build fails, dispatching the worker's signal leaves the
stored collage and the displayed preview exactly as they were; conversely,
the stored collage changes only when the build succeeded, and then it
becomes that successful result. -/
theorem failed_build_preserves_collage (st : UiState) (folder : Folder) (t d : Nat) :
    (∀ e, create_collage folder t d = Except.error e →
      (handleWorkerSignal st (CollageWorker.run folder t d)).1.generated_collage
          = st.generated_collage ∧
      (handleWorkerSignal st (CollageWorker.run folder t d)).1.preview = st.preview) ∧
    (∀ st2 dlg, handleWorkerSignal st (CollageWorker.run folder t d) = (st2, dlg) →
      st2.generated_collage ≠ st.generated_collage →
      ∃ collage, create_collage folder t d = Except.ok collage ∧
        st2.generated_collage = some collage) := by
  constructor
  · intro e he
    constructor <;> simp [CollageWorker.run, he, handleWorkerSignal]
  · intro st2 dlg hrun hne
    cases hc : create_collage folder t d with
    | error e =>
      simp [CollageWorker.run, hc, handleWorkerSignal] at hrun
      exact absurd (by rw [← hrun.1]) hne
    | ok collage =>
      simp [CollageWorker.run, hc, handleWorkerSignal] at hrun
      refine ⟨collage, rfl, ?_⟩
      rw [← hrun.1]

/-- Witness for C9: a count-mismatch failure leaves the initial state's
collage and preview untouched. -/
theorem failed_build_preserves_collage_witness :
    create_collage badFolder 1 2 = Except.error BuildError.countMismatch ∧
    (handleWorkerSignal initState (CollageWorker.run badFolder 1 2)).1.generated_collage
      = initState.generated_collage ∧
    (handleWorkerSignal initState (CollageWorker.run badFolder 1 2)).1.preview
      = initState.preview := by
  refine ⟨rfl, ?_, ?_⟩
  · exact ((failed_build_preserves_collage initState badFolder 1 2).1
      BuildError.countMismatch rfl).1
  · exact ((failed_build_preserves_collage initState badFolder 1 2).1
      BuildError.countMismatch rfl).2

/-! ## C10 - saving with no collage is a rejected no-op -/

/-- C10: invoking save while `generated_collage` is `None` pops the
no-collage error dialog and returns the UI state and filesystem exactly
unchanged, whatever the output path. -/
theorem save_without_collage_noop (st : UiState) (fs : FS)
    (h : st.generated_collage = none) :
    save_collage st fs = (st, fs, Dialog.critical noCollageText) := by
  simp [save_collage, h]

/-- Witness for C10: the freshly started application refuses to save. -/
theorem save_without_collage_noop_witness :
    initState.generated_collage = none ∧
    save_collage initState fsReadOnly = (initState, fsReadOnly, Dialog.critical noCollageText) :=
  ⟨rfl, save_without_collage_noop initState fsReadOnly rfl⟩
